import Mathlib

/-
  Shallow embedding of the ViewSB decoding and grouping pipeline
  (src/viewsb/decoders/grouping.py, src/viewsb/packet.py,
  src/viewsb/descriptor.py), together with theorems settling the
  behavioural claims about those stages.
-/

namespace ViewSB

/-! ## USB protocol basics (mirrors the `usb_protocol.types` dependency)

The repository imports `USBPacketID` and `USBDirection` from the external
`usb_protocol` package.  We embed the PID enumeration and the handful of
helper predicates the decoders use: the PID-group tests look at the low two
bits of the PID nibble, `direction` maps token PIDs to a bus direction, and
`to_endpoint_address` sets the high bit of the endpoint address for IN
endpoints. -/

/-- USB packet identifiers, as enumerated by the usb_protocol dependency. -/
inductive USBPacketID where
  | OUT | IN | SOF | SETUP
  | DATA0 | DATA1 | DATA2 | MDATA
  | ACK | NAK | STALL | NYET
  | PRE | SPLIT | PING
deriving DecidableEq, Repr, Inhabited

/-- USB bus directions, as enumerated by the usb_protocol dependency. -/
inductive USBDirection where
  | OUT | IN
deriving DecidableEq, Repr, Inhabited

namespace USBPacketID

/-- Raw 4-bit value of each PID (usb_protocol encoding). -/
def value : USBPacketID → Nat
  | .OUT => 0x1 | .IN => 0x9 | .SOF => 0x5 | .SETUP => 0xd
  | .DATA0 => 0x3 | .DATA1 => 0xb | .DATA2 => 0x7 | .MDATA => 0xf
  | .ACK => 0x2 | .NAK => 0xa | .STALL => 0xe | .NYET => 0x6
  | .PRE => 0xc | .SPLIT => 0x8 | .PING => 0x4

/-- True for the token PID group (low bits 0b01). -/
def is_token (pid : USBPacketID) : Bool := pid.value % 4 == 0b01

/-- True for the data PID group (low bits 0b11). -/
def is_data (pid : USBPacketID) : Bool := pid.value % 4 == 0b11

/-- True for the handshake PID group (low bits 0b10). -/
def is_handshake (pid : USBPacketID) : Bool := pid.value % 4 == 0b10

/-- Direction associated with a token PID, if any (usb_protocol semantics:
SETUP and OUT are host-to-device, IN is device-to-host). -/
def direction : USBPacketID → Option USBDirection
  | .SETUP => some .OUT
  | .OUT => some .OUT
  | .PING => some .OUT
  | .IN => some .IN
  | _ => none

end USBPacketID

namespace USBDirection

/-- Computes the endpoint address for this direction and endpoint number
(usb_protocol: IN endpoints get bit 7 set). -/
def to_endpoint_address (d : USBDirection) (endpoint_number : Nat) : Nat :=
  match d with
  | .IN => endpoint_number ||| (1 <<< 7)
  | .OUT => endpoint_number

end USBDirection

/-! ## Raw packets and the PID-group specializer (USBPacketSpecializer)

A raw `USBPacket` carries a PID and a byte payload (bytes are modelled as
`List Nat`).  `USBPacketSpecializer.consume_packet` dispatches on the PID
group and re-emits a specialized packet, or a `MalformedPacket` on length
violations, or leaves the packet unconsumed (`none`). -/

/-- Fields of a raw `USBPacket` reaching the specializer. -/
structure RawUSBPacket where
  timestamp : Int
  device_address : Option Nat
  endpoint_number : Option Nat
  direction : Option USBDirection
  pid : USBPacketID
  data : List Nat
deriving DecidableEq, Repr, Inhabited

/-- Packets the specializer can emit. -/
inductive SpecializedPacket where
  /-- USBStartOfFrame with all fields copied from the raw packet. -/
  | startOfFrame (p : RawUSBPacket)
  /-- USBTokenPacket: address, endpoint, crc5 extracted from the payload,
  direction derived from the PID. -/
  | tokenPacket (device_address endpoint_number crc5 : Nat)
      (direction : Option USBDirection) (p : RawUSBPacket)
  /-- USBHandshakePacket with all fields copied from the raw packet. -/
  | handshakePacket (p : RawUSBPacket)
  /-- USBDataPacket: trailing two payload bytes extracted as crc16;
  the carried raw packet has them stripped from its data. -/
  | dataPacket (crc16 : List Nat) (p : RawUSBPacket)
  /-- MalformedPacket with all fields copied from the raw packet. -/
  | malformedPacket (p : RawUSBPacket)
deriving DecidableEq, Repr

/-- Payload-size constants of USBPacketSpecializer. -/
def TOKEN_PAYLOAD_LENGTH : Nat := 2

/-- CRC16 trailer length. -/
def CRC16_LENGTH : Nat := 2

/-- Maximum packet payload constant of USBPacketSpecializer. -/
def MAXIMUM_PACKET_PAYLOAD : Nat := 1026

/-- Embedding of `USBPacketSpecializer._consume_token_packet`. -/
def consume_token_packet (p : RawUSBPacket) : SpecializedPacket :=
  if p.data.length ≠ TOKEN_PAYLOAD_LENGTH then
    .malformedPacket p
  else
    let b0 := p.data.headD 0
    let b1 := (p.data.drop 1).headD 0
    .tokenPacket (b0 &&& 0x7F) (((b1 &&& 0x07) <<< 1) ||| (b0 >>> 7)) (b1 >>> 3)
      p.pid.direction p

/-- Embedding of `USBPacketSpecializer._consume_data_packet`: the payload
must satisfy `CRC16_LENGTH <= len(data) < MAXIMUM_PACKET_PAYLOAD`; the
trailing two bytes become the crc16 and are stripped from the data. -/
def consume_data_packet (p : RawUSBPacket) : SpecializedPacket :=
  if ¬ (CRC16_LENGTH ≤ p.data.length ∧ p.data.length < MAXIMUM_PACKET_PAYLOAD) then
    .malformedPacket p
  else
    .dataPacket (p.data.drop (p.data.length - 2))
      { p with data := p.data.take (p.data.length - 2) }

/-- Embedding of `USBPacketSpecializer.consume_packet`; `none` models the
UnhandledPacket exception (packet not consumed). -/
def specializerConsume (p : RawUSBPacket) : Option SpecializedPacket :=
  if p.pid = .SOF then
    some (.startOfFrame p)
  else if p.pid.is_token then
    some (consume_token_packet p)
  else if p.pid.is_handshake then
    some (.handshakePacket p)
  else if p.pid.is_data then
    some (consume_data_packet p)
  else
    none

/-! ## Transaction grouping (USBTransactionDecoder)

The transaction decoder keeps one ordered buffer (`packets_captured`) of
token / data / handshake packets and flushes it as a `USBTransaction`.
We embed the buffered packets as `LowPkt` records (the fields the decoder
reads or copies into the transaction). -/

/-- Kind tag distinguishing the three packet classes the transaction
decoder accepts (USBTokenPacket, USBDataPacket, USBHandshakePacket). -/
inductive LowKind where
  | token | data | handshake
deriving DecidableEq, Repr, Inhabited

/-- A specialized packet buffered by the transaction decoder. -/
structure LowPkt where
  kind : LowKind
  timestamp : Int
  device_address : Nat
  endpoint_number : Nat
  direction : Option USBDirection
  pid : USBPacketID
  data : List Nat
deriving DecidableEq, Repr, Inhabited

/-- A `USBTransaction` as emitted by `USBTransactionDecoder.emit_transaction`:
header fields are copied from the first buffered packet, `token` and
`handshake` come from the first and last buffered PIDs, and the data fields
are populated only from a three-packet buffer. -/
structure USBTransactionP where
  timestamp : Int
  device_address : Nat
  endpoint_number : Nat
  direction : Option USBDirection
  token : USBPacketID
  handshake : USBPacketID
  data_pid : Option USBPacketID
  data : Option (List Nat)
  subordinate_packets : List LowPkt
deriving DecidableEq, Repr

/-- Embedding of `USBTransactionDecoder.emit_transaction`: flushing an empty
buffer emits nothing; otherwise one transaction is built from the buffer.
(The Python sequence_error argument is never read by the method body, so it
does not appear here.) -/
def emit_transaction : List LowPkt → List USBTransactionP
  | [] => []
  | first :: rest =>
    [{ timestamp := first.timestamp
       device_address := first.device_address
       endpoint_number := first.endpoint_number
       direction := first.direction
       token := first.pid
       handshake := ((first :: rest).getLast (List.cons_ne_nil _ _)).pid
       data_pid :=
         if (first :: rest).length = 3 then ((first :: rest)[1]?).map (·.pid) else none
       data :=
         if (first :: rest).length = 3 then ((first :: rest)[1]?).map (·.data) else none
       subordinate_packets := first :: rest }]

/-- Embedding of `USBTransactionDecoder.consume_packet`: returns the new
buffer and the transactions emitted while consuming one packet. -/
def txnConsume (st : List LowPkt) (p : LowPkt) : List LowPkt × List USBTransactionP :=
  match p.kind with
  | .token =>
      -- A token packet flushes any existing buffer first, then starts anew.
      if st.isEmpty then (st ++ [p], [])
      else ([p], emit_transaction st)
  | .data =>
      -- A data packet not following a token is a sequence error: the old
      -- buffer is flushed, the packet is appended, and flushed again.
      let sequence_error : Bool :=
        match st.getLast? with
        | some q => ! (q.kind == .token)
        | none => true
      if sequence_error then
        ([], emit_transaction st ++ emit_transaction [p])
      else
        (st ++ [p], [])
  | .handshake =>
      -- A handshake packet always ends the transaction; if the buffer does
      -- not start with a token it is first flushed as a sequence error.
      let sequence_error : Bool :=
        match st.head? with
        | some q => ! (q.kind == .token)
        | none => true
      if sequence_error then
        ([], emit_transaction st ++ emit_transaction [p])
      else
        ([], emit_transaction (st ++ [p]))

/-- Runs the transaction decoder over a packet list, collecting emissions. -/
def txnRun (st : List LowPkt) : List LowPkt → List LowPkt × List USBTransactionP
  | [] => (st, [])
  | p :: ps =>
    let (st1, em1) := txnConsume st p
    let (st2, em2) := txnRun st1 ps
    (st2, em1 ++ em2)

/-! ## Control-request grouping (USBControlRequestGrouper)

The grouper accepts exactly `USBSetupTransfer` and `USBDataTransfer` packets
on endpoint 0 (`can_handle_packet`), keyed per pipe on the device address
alone.  A piece is embedded as a flat record carrying the fields the grouper
and `USBControlTransfer.from_subordinates` read; `isSetup` is true exactly
for `USBSetupTransfer` pieces (which, among the two accepted types, is also
exactly the `USBSetupTransaction` instance test used in `consume_packet`).
The request_* fields are meaningful for setup pieces.  Data bytes are stored
as `get_raw_data` returns them (a possibly-empty byte string). -/

/-- One transfer piece buffered by the control-request grouper. -/
structure CtrlPiece where
  isSetup : Bool
  timestamp : Int
  device_address : Nat
  endpoint_number : Nat
  handshake : Option USBPacketID
  data : List Nat
  request_direction : USBDirection
  request_type : Nat
  recipient : Nat
  request_number : Nat
  value : Nat
  index : Nat
  request_length : Nat
deriving DecidableEq, Repr, Inhabited

/-- A `USBControlTransfer` as built by `USBControlTransfer.from_subordinates`. -/
structure USBControlTransferP where
  timestamp : Int
  device_address : Nat
  endpoint_number : Nat
  handshake : Option USBPacketID
  request_type : Nat
  recipient : Nat
  request_number : Nat
  value : Nat
  index : Nat
  request_length : Nat
  direction : USBDirection
  data : Option (List Nat)
  stalled : Bool
  subordinate_packets : List CtrlPiece
deriving DecidableEq, Repr

/-- Embedding of `USBControlTransfer.from_subordinates`: header and request
fields are copied from the setup piece, `direction` is the setup piece
request_direction, `data` is the data piece raw data when present, and
`stalled` is set when the status or the data piece carries a STALL
handshake.  Absent pieces are dropped from `subordinate_packets`. -/
def from_subordinates (setup : CtrlPiece) (dataT statusT : Option CtrlPiece) :
    USBControlTransferP :=
  { timestamp := setup.timestamp
    device_address := setup.device_address
    endpoint_number := setup.endpoint_number
    handshake := setup.handshake
    request_type := setup.request_type
    recipient := setup.recipient
    request_number := setup.request_number
    value := setup.value
    index := setup.index
    request_length := setup.request_length
    direction := setup.request_direction
    data := dataT.map (·.data)
    stalled :=
      (match statusT with
       | some s => s.handshake == some .STALL
       | none => false) ||
      (match dataT with
       | some d => d.handshake == some .STALL
       | none => false)
    subordinate_packets := [setup] ++ dataT.toList ++ statusT.toList }

/-- What one call of the control-request grouper can emit.  The
`internalError` case stands for the ValueError the code raises when a flush
finds more than three buffered pieces. -/
inductive CREmission where
  /-- MalformedPacket built from the fields of the carried piece. -/
  | malformed (p : CtrlPiece)
  /-- An emitted USBControlTransfer. -/
  | control (t : USBControlTransferP)
  /-- Models `raise ValueError(...)` on a buffer of more than three pieces. -/
  | internalError
deriving DecidableEq, Repr

/-- Per-pipe buffers of the control-request grouper, keyed on device
address (`_pipe_identifier_for_packet` returns `(packet.device_address,)`). -/
def CRState := Nat → List CtrlPiece

/-- Replaces one pipe buffer of a control-request grouper state. -/
def CRState.set (st : CRState) (pipe : Nat) (v : List CtrlPiece) : CRState :=
  fun k => if k = pipe then v else st k

/-- Embedding of `USBControlRequestGrouper.emit_control_request`: flushes the
pipe buffer and emits a MalformedPacket (single piece, or head not a setup
transfer), a ControlTransfer (two or three pieces headed by a setup), or an
internal error (longer buffers). -/
def crEmit (st : CRState) (pipe : Nat) : CRState × List CREmission :=
  match st pipe with
  | [] => (st, [])
  | [x] => (st.set pipe [], [.malformed x])
  | setup :: second :: rest =>
    let st1 := st.set pipe []
    if ¬ setup.isSetup then
      (st1, [.malformed setup])
    else
      match rest with
      | [] =>
        -- Two pieces: the second is a data stage when the setup declared a
        -- nonzero request_length, and a status stage otherwise.
        if setup.request_length ≠ 0 then
          (st1, [.control (from_subordinates setup (some second) none)])
        else
          (st1, [.control (from_subordinates setup none (some second))])
      | [third] =>
        (st1, [.control (from_subordinates setup (some second) (some third))])
      | _ => (st1, [.internalError])

/-- Embedding of `USBControlRequestGrouper.consume_packet`.  The local
`packets_on_pipe` alias of the Python code is bound to the list object
present at entry: if an emit replaces the buffer before the enqueue, the
later length checks still observe the old list (variable `aliasBuf`),
otherwise they observe the entry list extended by the enqueued packet. -/
def crConsume (st : CRState) (p : CtrlPiece) : CRState × List CREmission :=
  let pipe := p.device_address
  let buf0 := st pipe
  -- A SETUP piece always flushes whatever came before it.
  let (st1, em1) := if p.isSetup then crEmit st pipe else (st, [])
  -- A buffer whose head is not a setup is always flushed.
  let headNotSetup : Bool :=
    match buf0 with
    | [] => false
    | h :: _ => ! h.isSetup
  let (st2, em2) := if headNotSetup then crEmit st1 pipe else (st1, [])
  -- Always enqueue the current packet (on the possibly fresh buffer).
  let st3 := st2.set pipe ((st2 pipe) ++ [p])
  -- Whether either emit above replaced the buffer object, leaving the
  -- packets_on_pipe alias stale.
  let replaced : Bool :=
    match buf0 with
    | [] => false
    | h :: _ => p.isSetup || ! h.isSetup
  let aliasBuf := if replaced then buf0 else buf0 ++ [p]
  if aliasBuf.length = 2 then
    -- Two pieces: emit when the newest handshake stalled or when the setup
    -- declared no data stage.
    match aliasBuf with
    | setup :: _ =>
      if p.handshake == some .STALL || setup.request_length == 0 then
        let (st4, em4) := crEmit st3 pipe
        (st4, em1 ++ em2 ++ em4)
      else
        (st3, em1 ++ em2)
    | [] => (st3, em1 ++ em2)
  else if aliasBuf.length = 3 then
    let (st4, em4) := crEmit st3 pipe
    (st4, em1 ++ em2 ++ em4)
  else
    (st3, em1 ++ em2)

/-- Runs the control-request grouper over a piece list from a given state. -/
def crRun (st : CRState) : List CtrlPiece → CRState × List CREmission
  | [] => (st, [])
  | p :: ps =>
    let (st1, em1) := crConsume st p
    let (st2, em2) := crRun st1 ps
    (st2, em1 ++ em2)

/-- The empty control-request grouper state. -/
def crEmpty : CRState := fun _ => []

/-- Setup stage of the canonical OUT control request on address 5,
endpoint 0, with request_length 4. -/
def c3setup : CtrlPiece :=
  { isSetup := true, timestamp := 0, device_address := 5, endpoint_number := 0,
    handshake := some .ACK, data := [0x00, 0x06, 0, 0, 0, 0, 4, 0],
    request_direction := .OUT, request_type := 0, recipient := 0,
    request_number := 6, value := 0, index := 0, request_length := 4 }

/-- ACKed data stage carrying the four ASCII bytes of the string 1234. -/
def c3data : CtrlPiece :=
  { isSetup := false, timestamp := 1, device_address := 5, endpoint_number := 0,
    handshake := some .ACK, data := [0x31, 0x32, 0x33, 0x34],
    request_direction := .OUT, request_type := 0, recipient := 0,
    request_number := 0, value := 0, index := 0, request_length := 0 }

/-- ACKed zero-length status stage of the canonical control request. -/
def c3status : CtrlPiece :=
  { isSetup := false, timestamp := 2, device_address := 5, endpoint_number := 0,
    handshake := some .ACK, data := [],
    request_direction := .OUT, request_type := 0, recipient := 0,
    request_number := 0, value := 0, index := 0, request_length := 0 }

/-- A buffered setup stage on device address 3. -/
def c4setup : CtrlPiece :=
  { isSetup := true, timestamp := 0, device_address := 3, endpoint_number := 0,
    handshake := some .ACK, data := [0x80, 0x06, 0, 0, 0, 0, 8, 0],
    request_direction := .IN, request_type := 0, recipient := 0,
    request_number := 6, value := 0, index := 0, request_length := 8 }

/-- A setup transfer carrying a STALL handshake, arriving on address 3. -/
def c4stallSetup : CtrlPiece :=
  { isSetup := true, timestamp := 10, device_address := 3, endpoint_number := 0,
    handshake := some .STALL, data := [0x80, 0x06, 0, 0, 0, 0, 8, 0],
    request_direction := .IN, request_type := 0, recipient := 0,
    request_number := 6, value := 0, index := 0, request_length := 8 }

/-- Control-request grouper state with exactly `c4setup` buffered on pipe 3. -/
def c4state : CRState := fun k => if k = 3 then [c4setup] else []

/-- A lone buffered setup stage on device address 2. -/
def c5setup : CtrlPiece :=
  { isSetup := true, timestamp := 0, device_address := 2, endpoint_number := 0,
    handshake := some .ACK, data := [0x00, 0x05, 7, 0, 0, 0, 0, 0],
    request_direction := .OUT, request_type := 0, recipient := 0,
    request_number := 5, value := 7, index := 0, request_length := 0 }

/-- Control-request grouper state with exactly `c5setup` buffered on pipe 2. -/
def c5state : CRState := fun k => if k = 2 then [c5setup] else []

/-! ## Transfer grouping (USBTransferGrouper)

The transfer grouper accepts `USBSetupTransaction` and `USBDataTransaction`
packets (setup transactions are exactly those whose token is SETUP, by the
transaction specializer) and buffers them per pipe.  Timestamps are in
microseconds; the discontinuity window of `timedelta(microseconds=10e3)` is
10000 microseconds.  The `assert len(packets) == 1` inside
`flush_queued_packets` is modelled as the `Except` error case. -/

/-- A Setup/Data transaction as consumed by the transfer grouper. -/
structure TGTxn where
  token : USBPacketID
  direction : USBDirection
  endpoint_number : Nat
  device_address : Nat
  timestamp : Int
  data : Option (List Nat)
  handshake : Option USBPacketID
deriving DecidableEq, Repr, Inhabited

/-- Embedding of `USBTransferGrouper._pipe_identifier_for_packet`: endpoint
zero collapses both directions onto one key; other endpoints key on the
direction-qualified endpoint address. -/
def pipeIdentifier (p : TGTxn) : Nat × Nat :=
  if p.endpoint_number = 0 then
    (p.device_address, 0)
  else
    (p.device_address, p.direction.to_endpoint_address p.endpoint_number)

/-- A `USBDataTransfer` as emitted by `_emit_data_transfer_from_packets`
after `USBDataTransfer.validate` ran: header fields from the first member,
handshake from the last member, and data the concatenation of the payloads
of ACKed data-carrying members, in order. -/
structure TGDataTransferP where
  timestamp : Int
  device_address : Nat
  endpoint_number : Nat
  direction : USBDirection
  token : USBPacketID
  handshake : Option USBPacketID
  data : List Nat
  subordinate_packets : List TGTxn
deriving DecidableEq, Repr

/-- Packets the transfer grouper can emit. -/
inductive TGEmission where
  /-- USBSetupTransfer built from the fields of a lone setup transaction. -/
  | setupTransfer (p : TGTxn)
  /-- USBDataTransfer built from a run of buffered transactions. -/
  | dataTransfer (t : TGDataTransferP)
deriving DecidableEq, Repr

/-- The transactions an emitted transfer was grouped from. -/
def TGEmission.memberTxns : TGEmission → List TGTxn
  | .setupTransfer p => [p]
  | .dataTransfer t => t.subordinate_packets

/-- Per-pipe buffers of the transfer grouper. -/
def TGState := Nat × Nat → List TGTxn

/-- Replaces one pipe buffer of a transfer grouper state. -/
def TGState.set (st : TGState) (pipe : Nat × Nat) (v : List TGTxn) : TGState :=
  fun k => if k = pipe then v else st k

/-- The empty transfer grouper state. -/
def tgEmpty : TGState := fun _ => []

/-- Data concatenation performed by `USBDataTransfer.validate`: payloads of
members that carry a nonempty payload and an ACK handshake, in order. -/
def ackedDataConcat (packets : List TGTxn) : List Nat :=
  packets.foldl
    (fun acc q =>
      match q.data with
      | some d => if d ≠ [] ∧ q.handshake = some .ACK then acc ++ d else acc
      | none => acc)
    []

/-- Embedding of `USBTransferGrouper._emit_data_transfer_from_packets`
composed with `USBDataTransfer.validate` (which fills the cleared data and
handshake fields from the subordinates). -/
def emit_data_transfer_from_packets : List TGTxn → List TGEmission
  | [] => []
  | first :: rest =>
    [.dataTransfer
      { timestamp := first.timestamp
        device_address := first.device_address
        endpoint_number := first.endpoint_number
        direction := first.direction
        token := first.token
        handshake := ((first :: rest).getLast (List.cons_ne_nil _ _)).handshake
        data := ackedDataConcat (first :: rest)
        subordinate_packets := first :: rest }]

/-- Embedding of `USBTransferGrouper.flush_queued_packets`.  A buffer headed
by a SETUP transaction must hold exactly one packet (the `assert`); control
endpoint buffers ending with a direction switch split off the trailing
packet as a separate status transfer. -/
def flush_queued_packets (st : TGState) (pipe : Nat × Nat) :
    Except Unit (TGState × List TGEmission) :=
  match st pipe with
  | [] => .ok (st, [])
  | first :: rest =>
    let st1 := st.set pipe []
    if first.token = .SETUP then
      if rest = [] then .ok (st1, [.setupTransfer first])
      else .error ()
    else
      let last := (first :: rest).getLast (List.cons_ne_nil _ _)
      if first.endpoint_number = 0 ∧ last.direction ≠ first.direction then
        .ok (st1,
          emit_data_transfer_from_packets (first :: rest).dropLast
            ++ emit_data_transfer_from_packets [last])
      else
        .ok (st1, emit_data_transfer_from_packets (first :: rest))

/-- Embedding of `USBTransferGrouper.packet_starts_new_transfer`: SETUP
always starts a transfer; on endpoint 0 any direction switch against the
first buffered packet starts one; an empty buffer never does. -/
def packet_starts_new_transfer (st : TGState) (p : TGTxn) : Bool :=
  if p.token = .SETUP then
    true
  else
    match st (pipeIdentifier p) with
    | [] => false
    | first :: _ => (p.endpoint_number == 0) && ! (p.direction == first.direction)

/-- Embedding of `USBTransferGrouper.packet_concludes_transfer`: an ACKed
packet with zero-length data or a length not a multiple of eight concludes,
and SETUP always concludes. -/
def packet_concludes_transfer (p : TGTxn) : Bool :=
  (match p.data with
   | some d => (p.handshake == some .ACK) && (d.length == 0 || d.length % 8 != 0)
   | none => false)
  || (p.token == .SETUP)

/-- Embedding of `USBTransferGrouper.packet_seems_discontinuous`: true when
the pipe has buffered packets, the endpoint is not the control endpoint, and
more than 10 milliseconds passed since the last buffered packet. -/
def packet_seems_discontinuous (st : TGState) (p : TGTxn) : Bool :=
  match st (pipeIdentifier p) with
  | [] => false
  | q :: qs =>
    (p.endpoint_number != 0)
      && decide (p.timestamp - ((q :: qs).getLast (List.cons_ne_nil _ _)).timestamp > 10000)

/-- Embedding of `USBTransferGrouper.consume_packet`: pre-flush when the
packet starts a new transfer or seems discontinuous, enqueue, post-flush
when the packet concludes a transfer. -/
def tgConsume (st : TGState) (p : TGTxn) : Except Unit (TGState × List TGEmission) :=
  let pipe := pipeIdentifier p
  match (if packet_starts_new_transfer st p || packet_seems_discontinuous st p then
          flush_queued_packets st pipe
         else .ok (st, [])) with
  | .error e => .error e
  | .ok (st1, em1) =>
    let st2 := st1.set pipe ((st1 pipe) ++ [p])
    match (if packet_concludes_transfer p then flush_queued_packets st2 pipe
           else .ok (st2, [])) with
    | .error e => .error e
    | .ok (st3, em3) => .ok (st3, em1 ++ em3)

/-- Runs the transfer grouper over a transaction list from a given state. -/
def tgRun (st : TGState) : List TGTxn → Except Unit (TGState × List TGEmission)
  | [] => .ok (st, [])
  | p :: ps =>
    match tgConsume st p with
    | .error e => .error e
    | .ok (st1, em1) =>
      match tgRun st1 ps with
      | .error e => .error e
      | .ok (st2, em2) => .ok (st2, em1 ++ em2)

/-- Invariant of the transfer grouper between consumes: no pipe buffer is
headed by a SETUP transaction (a SETUP both pre-flushes its pipe and
concludes its own transfer within one consume). -/
def tgInv (st : TGState) : Prop :=
  ∀ k first rest, st k = first :: rest → first.token ≠ .SETUP

/-- An IN transaction on endpoint 1 of device 4 at time 0 whose full-size
payload does not conclude a transfer. -/
def c6p1 : TGTxn :=
  { token := .IN, direction := .IN, endpoint_number := 1, device_address := 4,
    timestamp := 0, data := some [1, 2, 3, 4, 5, 6, 7, 8], handshake := some .ACK }

/-- An IN transaction on the same pipe as `c6p1`, 20000 microseconds later. -/
def c6p2 : TGTxn :=
  { token := .IN, direction := .IN, endpoint_number := 1, device_address := 4,
    timestamp := 20000, data := some [1, 2, 3], handshake := some .ACK }

/-- Transfer grouper state with exactly `c6p1` buffered on its pipe. -/
def c6state : TGState :=
  fun k => if k = pipeIdentifier c6p1 then [c6p1] else []

/-! ## Descriptor decoding (DescriptorTransfer.decode_data_as_descriptor)

The base `DescriptorTransfer.BINARY_FORMAT` schema holds the two one-byte
header fields `bLength` and `bDescriptorType`, each a `DescriptorField`,
i.e. a construct `Optional(Int8ul)`: a field whose byte lies past the end
of the data parses to `None` instead of raising. -/

/-- Header fields parsed by the base descriptor schema. -/
structure ParsedDescriptorHeader where
  bLength : Option Nat
  bDescriptorType : Option Nat
deriving DecidableEq, Repr

/-- Embedding of `DescriptorTransfer.decode_data_as_descriptor` over the
base schema: empty data gives `(none, 0)`; otherwise the header parses
per the schema and the byte count is the declared length `data[0]`,
truncated to `len(data)` when the data is shorter than declared. -/
def decode_data_as_descriptor (data : List Nat) :
    Option ParsedDescriptorHeader × Nat :=
  match data with
  | [] => (none, 0)
  | b0 :: _ =>
    let descriptor_length := if data.length < b0 then data.length else b0
    (some { bLength := data[0]?, bDescriptorType := data[1]? }, descriptor_length)

/-! ## Start-of-frame conglomeration (USBStartOfFrameConglomerator)

The conglomerator appends consecutive `USBStartOfFrame` packets to an
internal list and, when a non-SOF packet arrives, emits one
`USBStartOfFrameCollection` built by copying the field dictionary of the
FIRST queued packet; the line that would install the queued packets as the
collection `subordinate_packets` is commented out in the source. -/

/-- A start-of-frame packet together with its own provenance list (the
specializer produces SOFs whose provenance list is empty). -/
inductive SOFPkt where
  | mk (timestamp : Int) (data : List Nat) (subordinate_packets : List SOFPkt)

/-- Timestamp field of a start-of-frame packet. -/
def SOFPkt.timestamp : SOFPkt → Int
  | .mk t _ _ => t

/-- Data field of a start-of-frame packet. -/
def SOFPkt.data : SOFPkt → List Nat
  | .mk _ d _ => d

/-- Provenance list of a start-of-frame packet. -/
def SOFPkt.subordinate_packets : SOFPkt → List SOFPkt
  | .mk _ _ s => s

/-- A `USBStartOfFrameCollection` as emitted by the conglomerator. -/
structure SOFCollectionP where
  timestamp : Int
  data : List Nat
  subordinate_packets : List SOFPkt

/-- Embedding of `USBStartOfFrameConglomerator._emit_queued_packets`: all
fields, including `subordinate_packets`, are copied from the first queued
packet (the assignment of the queued list itself is commented out). -/
def sofEmitQueued : List SOFPkt → List SOFCollectionP
  | [] => []
  | first :: _ =>
    [{ timestamp := first.timestamp
       data := first.data
       subordinate_packets := first.subordinate_packets }]

/-- Embedding of `USBStartOfFrameConglomerator.consume_packet`: a SOF input
(`some sof`) is queued; any other packet (`none`) flushes the queue and is
left unconsumed. -/
def sofConsume (st : List SOFPkt) : Option SOFPkt → List SOFPkt × List SOFCollectionP
  | some sof => (st ++ [sof], [])
  | none => ([], sofEmitQueued st)

/-- Runs the conglomerator over an input list, collecting emissions. -/
def sofRun (st : List SOFPkt) : List (Option SOFPkt) → List SOFPkt × List SOFCollectionP
  | [] => (st, [])
  | p :: ps =>
    let (st1, em1) := sofConsume st p
    let (st2, em2) := sofRun st1 ps
    (st2, em1 ++ em2)

/-- A first start-of-frame packet with empty provenance. -/
def sofA : SOFPkt := .mk 0 [1] []

/-- A second start-of-frame packet with empty provenance. -/
def sofB : SOFPkt := .mk 125 [2] []

end ViewSB

/-! # Theorems -/

namespace ViewSB

/-- Sanity check of PID-group predicates against the usb_protocol encoding. -/
theorem pid_groups_partition :
    USBPacketID.DATA0.is_data = true ∧ USBPacketID.MDATA.is_data = true ∧
    USBPacketID.SETUP.is_token = true ∧ USBPacketID.ACK.is_handshake = true ∧
    USBPacketID.SOF.is_data = false := by decide

/-- A data-group PID routes the specializer to `_consume_data_packet`. -/
theorem specializerConsume_of_is_data (p : RawUSBPacket) (hp : p.pid.is_data = true) :
    specializerConsume p = some (consume_data_packet p) := by
  cases h : p.pid <;>
    simp_all [specializerConsume, USBPacketID.is_data, USBPacketID.is_token,
      USBPacketID.is_handshake, USBPacketID.value]

/-- C1: a token packet, then a data packet, then a handshake packet arriving
at the transaction grouper with an empty buffer produce exactly one
transaction whose token and handshake are the first and last PIDs, whose
data and data_pid come from the middle packet, and whose subordinates are
the three packets in order; moreover any flushed buffer populates data and
data_pid exactly when it has three members. -/
theorem txn_grouper_triple (t d h : LowPkt)
    (ht : t.kind = .token) (hd : d.kind = .data) (hh : h.kind = .handshake) :
    txnRun [] [t, d, h] =
      ([], [{ timestamp := t.timestamp
              device_address := t.device_address
              endpoint_number := t.endpoint_number
              direction := t.direction
              token := t.pid
              handshake := h.pid
              data_pid := some d.pid
              data := some d.data
              subordinate_packets := [t, d, h] }])
    ∧ ∀ (buf : List LowPkt) (txn : USBTransactionP), txn ∈ emit_transaction buf →
        ((txn.data = none ∧ txn.data_pid = none) ↔ buf.length ≠ 3) := by
  constructor
  · simp [txnRun, txnConsume, emit_transaction, ht, hd, hh, List.getLast]
  · intro buf txn hmem
    match buf with
    | [] => simp [emit_transaction] at hmem
    | first :: rest =>
      simp only [emit_transaction, List.mem_singleton] at hmem
      subst hmem
      by_cases h3 : (first :: rest).length = 3
      · match rest, h3 with
        | [b, c], _ => simp
      · rw [if_neg h3, if_neg h3]
        simp only [List.length_cons] at h3 ⊢
        simp [h3]

/-- Concrete instantiation of `txn_grouper_triple`. -/
theorem txn_grouper_triple_witness :
    txnRun []
      [{ kind := .token, timestamp := 0, device_address := 5, endpoint_number := 0,
         direction := some .OUT, pid := .SETUP, data := [0, 5] },
       { kind := .data, timestamp := 1, device_address := 5, endpoint_number := 0,
         direction := some .OUT, pid := .DATA0, data := [1, 2] },
       { kind := .handshake, timestamp := 2, device_address := 5, endpoint_number := 0,
         direction := some .OUT, pid := .ACK, data := [] }] =
      ([], [{ timestamp := 0, device_address := 5, endpoint_number := 0,
              direction := some .OUT, token := .SETUP, handshake := .ACK,
              data_pid := some .DATA0, data := some [1, 2],
              subordinate_packets :=
                [{ kind := .token, timestamp := 0, device_address := 5,
                   endpoint_number := 0, direction := some .OUT, pid := .SETUP,
                   data := [0, 5] },
                 { kind := .data, timestamp := 1, device_address := 5,
                   endpoint_number := 0, direction := some .OUT, pid := .DATA0,
                   data := [1, 2] },
                 { kind := .handshake, timestamp := 2, device_address := 5,
                   endpoint_number := 0, direction := some .OUT, pid := .ACK,
                   data := [] }] }]) :=
  (txn_grouper_triple _ _ _ rfl rfl rfl).1

/-- A data-group raw packet whose payload is exactly 1026 bytes long. -/
def fullSizeDataPacket : RawUSBPacket :=
  { timestamp := 0, device_address := none, endpoint_number := none,
    direction := none, pid := .DATA0, data := List.replicate 1026 0 }

/-- C2 counterexample: the claim requires a payload of exactly 1026 bytes
(the inclusive upper bound) to produce a USBDataPacket, but the code checks
`len(data) < MAXIMUM_PACKET_PAYLOAD` strictly and emits a MalformedPacket. -/
theorem specializer_1026_malformed :
    fullSizeDataPacket.pid.is_data = true ∧
    fullSizeDataPacket.data.length = 1026 ∧
    specializerConsume fullSizeDataPacket = some (.malformedPacket fullSizeDataPacket) := by
  have hlen : fullSizeDataPacket.data.length = 1026 := List.length_replicate 1026 0
  refine ⟨by decide, hlen, ?_⟩
  rw [specializerConsume_of_is_data _ (by decide)]
  simp [consume_data_packet, hlen, CRC16_LENGTH, MAXIMUM_PACKET_PAYLOAD]

/-- C2 amended: a data-group packet is specialized to a USBDataPacket, with
the trailing two bytes extracted as crc16 and stripped from the data, when
`2 <= len(data) < 1026`; any length outside that half-open range yields a
MalformedPacket. -/
theorem specializer_data_bounds (p : RawUSBPacket) (hp : p.pid.is_data = true) :
    (2 ≤ p.data.length ∧ p.data.length < 1026 →
      specializerConsume p = some (.dataPacket (p.data.drop (p.data.length - 2))
        { p with data := p.data.take (p.data.length - 2) }))
    ∧ (¬ (2 ≤ p.data.length ∧ p.data.length < 1026) →
      specializerConsume p = some (.malformedPacket p)) := by
  rw [specializerConsume_of_is_data p hp]
  constructor
  · intro hrange
    simp [consume_data_packet, CRC16_LENGTH, MAXIMUM_PACKET_PAYLOAD, hrange.1, hrange.2]
  · intro hrange
    simp only [consume_data_packet, CRC16_LENGTH, MAXIMUM_PACKET_PAYLOAD]
    rw [if_pos]
    exact hrange

/-- C3: feeding the control-request grouper the setup stage (request_length
4, direction OUT, address 5, endpoint 0), then the ACKed data stage carrying
the bytes of 1234, then the status stage, yields exactly one ControlTransfer
with direction OUT, data 1234 and a clear stalled flag. -/
theorem cr_grouper_canonical_out_request :
    (crRun crEmpty [c3setup, c3data, c3status]).2 =
      [.control
        { timestamp := 0, device_address := 5, endpoint_number := 0,
          handshake := some .ACK, request_type := 0, recipient := 0,
          request_number := 6, value := 0, index := 0, request_length := 4,
          direction := .OUT, data := some [0x31, 0x32, 0x33, 0x34],
          stalled := false,
          subordinate_packets := [c3setup, c3data, c3status] }] := by
  rfl

/-- C4 counterexample: with a setup stage buffered on pipe 3, the next
accepted piece carries a STALL handshake but is itself a setup transfer; the
grouper then emits only a MalformedPacket built from the buffered setup, not
a ControlTransfer from the two pieces. -/
theorem cr_stall_setup_no_control :
    c4state c4stallSetup.device_address = [c4setup] ∧
    c4setup.isSetup = true ∧
    c4stallSetup.handshake = some .STALL ∧
    (crConsume c4state c4stallSetup).2 = [.malformed c4setup] := by
  refine ⟨by rfl, by rfl, by rfl, by rfl⟩

/-- C4 amended: if a setup stage is buffered and the next accepted piece on
the same pipe is a non-setup transfer carrying a STALL handshake, the
grouper immediately emits the ControlTransfer built from those two pieces
(as data or status stage according to the declared request_length) and
clears the pipe; and in every ControlTransfer built by from_subordinates the
stalled flag is set exactly when the data or the status sub-stage carries a
STALL handshake. -/
theorem cr_stall_finalizes (st : CRState) (s p : CtrlPiece)
    (hbuf : st p.device_address = [s]) (hs : s.isSetup = true)
    (hp : p.isSetup = false) (hstall : p.handshake = some .STALL) :
    ((crConsume st p).2 =
        [.control (if s.request_length ≠ 0 then from_subordinates s (some p) none
                   else from_subordinates s none (some p))]
      ∧ (crConsume st p).1 p.device_address = [])
    ∧ ∀ (s2 : CtrlPiece) (dO sO : Option CtrlPiece),
        ((from_subordinates s2 dO sO).stalled = true ↔
          ((∃ d, dO = some d ∧ d.handshake = some .STALL) ∨
           (∃ x, sO = some x ∧ x.handshake = some .STALL))) := by
  constructor
  · simp only [crConsume, hbuf, hp, hs, hstall, Bool.false_eq_true, if_false,
      Bool.not_true, Bool.false_or]
    simp only [CRState.set, crEmit, hbuf]
    simp [crEmit, CRState.set, hs]
    by_cases hrl : s.request_length = 0 <;> simp [hrl, CRState.set]
  · intro s2 dO sO
    cases dO <;> cases sO <;>
      (simp [from_subordinates]; try aesop)

/-- Concrete instantiation of `cr_stall_finalizes`: a STALL on the data
stage of the buffered request on pipe 3 finalizes it at once. -/
theorem cr_stall_finalizes_witness :
    (crConsume c4state
        { c4stallSetup with isSetup := false }).2 =
      [.control (from_subordinates c4setup
          (some { c4stallSetup with isSetup := false }) none)]
      ∧ (crConsume c4state { c4stallSetup with isSetup := false }).1 3 = [] := by
  have h := cr_stall_finalizes c4state c4setup
    { c4stallSetup with isSetup := false } rfl rfl rfl rfl
  have h8 : c4setup.request_length ≠ 0 := by decide
  refine ⟨?_, h.1.2⟩
  rw [h.1.1, if_pos h8]

/-- C5 counterexample: flushing a pipe whose buffer holds exactly one piece
that IS a setup transfer still emits a MalformedPacket, contradicting the
claimed characterization (which only names single non-setup pieces and
setup-less buffers). -/
theorem cr_flush_single_setup_malformed :
    c5state 2 = [c5setup] ∧ c5setup.isSetup = true ∧
    (crEmit c5state 2).2 = [.malformed c5setup] := by
  refine ⟨by rfl, by rfl, by rfl⟩

/-- C5 amended: a flush of a non-empty pipe buffer emits a MalformedPacket,
built from the first buffered piece, exactly when the buffer holds a single
piece (setup or not) or its first piece is not a setup transfer; every flush
of a buffer headed by a setup transfer with exactly two or three pieces
emits a ControlTransfer. -/
theorem cr_emit_characterization (st : CRState) (pipe : Nat)
    (first : CtrlPiece) (rest : List CtrlPiece) (hbuf : st pipe = first :: rest) :
    ((∃ q, CREmission.malformed q ∈ (crEmit st pipe).2) ↔
        (rest = [] ∨ first.isSetup = false))
    ∧ (∀ q, CREmission.malformed q ∈ (crEmit st pipe).2 → q = first)
    ∧ (first.isSetup = true → (rest.length = 1 ∨ rest.length = 2) →
        ∃ ct, (crEmit st pipe).2 = [.control ct]) := by
  match rest with
  | [] =>
    simp only [crEmit, hbuf]
    simp
  | second :: rest2 =>
    by_cases hset : first.isSetup
    · match rest2 with
      | [] =>
        simp only [crEmit, hbuf, hset]
        by_cases hrl : first.request_length ≠ 0 <;> simp [hrl, hset]
      | [third] =>
        simp only [crEmit, hbuf, hset]
        simp [hset]
      | _ :: _ :: _ =>
        simp only [crEmit, hbuf, hset]
        simp [hset]
    · simp only [crEmit, hbuf]
      simp [hset]

/-- Concrete instantiation of `cr_emit_characterization` on the single-setup
buffer of pipe 2. -/
theorem cr_emit_characterization_witness :
    (∃ q, CREmission.malformed q ∈ (crEmit c5state 2).2) ∧
    (∀ q, CREmission.malformed q ∈ (crEmit c5state 2).2 → q = c5setup) := by
  have h := cr_emit_characterization c5state 2 c5setup [] rfl
  exact ⟨h.1.mpr (Or.inl rfl), h.2.1⟩

/-- C7: the transfer grouper keys endpoint-zero packets on
`(device_address, 0)` regardless of direction, and non-zero endpoints on
the direction-qualified endpoint address, so both directions of endpoint 0
share one buffer while IN and OUT on a non-zero endpoint never do. -/
theorem tg_pipe_identifier_spec :
    (∀ p : TGTxn, p.endpoint_number = 0 →
        pipeIdentifier p = (p.device_address, 0))
    ∧ (∀ p : TGTxn, p.endpoint_number ≠ 0 →
        pipeIdentifier p =
          (p.device_address, p.direction.to_endpoint_address p.endpoint_number))
    ∧ (∀ p q : TGTxn, p.device_address = q.device_address →
        p.endpoint_number = 0 → q.endpoint_number = 0 →
        pipeIdentifier p = pipeIdentifier q)
    ∧ (∀ p q : TGTxn, p.device_address = q.device_address →
        p.endpoint_number = q.endpoint_number → p.endpoint_number ≠ 0 →
        p.endpoint_number < 16 →
        p.direction = .IN → q.direction = .OUT →
        pipeIdentifier p ≠ pipeIdentifier q) := by
  refine ⟨?_, ?_, ?_, ?_⟩
  · intro p h
    simp [pipeIdentifier, h]
  · intro p h
    simp [pipeIdentifier, h]
  · intro p q haddr hp hq
    simp [pipeIdentifier, hp, hq, haddr]
  · intro p q haddr hep hne hlt hdp hdq heq
    have h128 : p.endpoint_number ||| 128 ≠ p.endpoint_number := by
      intro he
      have h1 : (p.endpoint_number ||| 128).testBit 7 =
          (p.endpoint_number.testBit 7 || (128 : Nat).testBit 7) :=
        Nat.testBit_or p.endpoint_number 128 7
      have h2 : p.endpoint_number.testBit 7 = false :=
        Nat.testBit_lt_two_pow (by omega)
      have h3 : (128 : Nat).testBit 7 = true := by decide
      rw [he, h2, h3] at h1
      simp at h1
    rw [pipeIdentifier, pipeIdentifier, if_neg hne, if_neg (hep ▸ hne)] at heq
    rw [hdp, hdq] at heq
    rw [USBDirection.to_endpoint_address, USBDirection.to_endpoint_address] at heq
    have := (Prod.mk.injEq _ _ _ _).mp heq
    rw [← hep] at this
    exact h128 this.2

/-- Concrete instantiation of `tg_pipe_identifier_spec` on endpoint 2 of
device 7. -/
theorem tg_pipe_identifier_spec_witness :
    pipeIdentifier
        { token := .IN, direction := .IN, endpoint_number := 2,
          device_address := 7, timestamp := 0, data := none, handshake := none } ≠
      pipeIdentifier
        { token := .OUT, direction := .OUT, endpoint_number := 2,
          device_address := 7, timestamp := 0, data := none, handshake := none } :=
  tg_pipe_identifier_spec.2.2.2
    { token := .IN, direction := .IN, endpoint_number := 2,
      device_address := 7, timestamp := 0, data := none, handshake := none }
    { token := .OUT, direction := .OUT, endpoint_number := 2,
      device_address := 7, timestamp := 0, data := none, handshake := none }
    rfl rfl (by decide) (by decide) rfl rfl

/-- Every transfer emitted by `_emit_data_transfer_from_packets` records
exactly the packets it was built from. -/
theorem emit_data_members (l : List TGTxn) (em : TGEmission)
    (h : em ∈ emit_data_transfer_from_packets l) : em.memberTxns = l := by
  match l with
  | [] => simp [emit_data_transfer_from_packets] at h
  | first :: rest =>
    simp only [emit_data_transfer_from_packets, List.mem_singleton] at h
    subst h
    rfl

/-- A successful flush empties the flushed pipe, leaves other pipes alone,
and only groups packets that were buffered on the flushed pipe. -/
theorem flush_ok_cases (st : TGState) (pipe : Nat × Nat) (st1 : TGState)
    (ems : List TGEmission) (h : flush_queued_packets st pipe = .ok (st1, ems)) :
    st1 pipe = [] ∧ (∀ k, k ≠ pipe → st1 k = st k) ∧
    ∀ em ∈ ems, ∀ x ∈ em.memberTxns, x ∈ st pipe := by
  match hb : st pipe with
  | [] =>
    simp only [flush_queued_packets, hb] at h
    injection h with h
    injection h with h1 h2
    subst h1; subst h2
    exact ⟨hb, fun _ _ => rfl, by simp⟩
  | first :: rest =>
    simp only [flush_queued_packets, hb] at h
    by_cases hset : first.token = .SETUP
    · rw [if_pos hset] at h
      by_cases hrest : rest = []
      · rw [if_pos hrest] at h
        injection h with h
        injection h with h1 h2
        subst h1; subst h2
        refine ⟨by simp [TGState.set], fun k hk => by simp [TGState.set, hk], ?_⟩
        intro em hem x hx
        simp only [List.mem_singleton] at hem
        subst hem
        simp only [TGEmission.memberTxns, List.mem_singleton] at hx
        subst hx
        simp [hb]
      · rw [if_neg hrest] at h
        exact absurd h (by simp)
    · rw [if_neg hset] at h
      by_cases hsplit : first.endpoint_number = 0 ∧
          ((first :: rest).getLast (List.cons_ne_nil _ _)).direction ≠ first.direction
      · rw [if_pos hsplit] at h
        injection h with h
        injection h with h1 h2
        subst h1; subst h2
        refine ⟨by simp [TGState.set], fun k hk => by simp [TGState.set, hk], ?_⟩
        intro em hem x hx
        rw [List.mem_append] at hem
        rcases hem with hem | hem
        · rw [emit_data_members _ _ hem] at hx
          exact List.dropLast_subset _ hx
        · rw [emit_data_members _ _ hem] at hx
          simp only [List.mem_singleton] at hx
          subst hx
          exact List.getLast_mem _
      · rw [if_neg hsplit] at h
        injection h with h
        injection h with h1 h2
        subst h1; subst h2
        refine ⟨by simp [TGState.set], fun k hk => by simp [TGState.set, hk], ?_⟩
        intro em hem x hx
        rw [emit_data_members _ _ hem] at hx
        exact hx

/-- A flush succeeds whenever the buffer is empty, headed by a non-SETUP
packet, or a singleton. -/
theorem flush_ok_of_head (st : TGState) (pipe : Nat × Nat)
    (h : ∀ first rest, st pipe = first :: rest → first.token ≠ .SETUP ∨ rest = []) :
    ∃ st1 ems, flush_queued_packets st pipe = .ok (st1, ems) := by
  match hb : st pipe with
  | [] => exact ⟨st, [], by simp only [flush_queued_packets, hb]⟩
  | first :: rest =>
    rcases h first rest hb with hh | hh
    · simp only [flush_queued_packets, hb]
      rw [if_neg hh]
      by_cases hsplit : first.endpoint_number = 0 ∧
          ((first :: rest).getLast (List.cons_ne_nil _ _)).direction ≠ first.direction
      · rw [if_pos hsplit]
        exact ⟨_, _, rfl⟩
      · rw [if_neg hsplit]
        exact ⟨_, _, rfl⟩
    · subst hh
      simp only [flush_queued_packets, hb]
      by_cases hset : first.token = .SETUP
      · rw [if_pos hset]
        exact ⟨_, _, if_pos trivial⟩
      · rw [if_neg hset]
        by_cases hsplit : first.endpoint_number = 0 ∧
            (([first] : List TGTxn).getLast (List.cons_ne_nil _ _)).direction ≠ first.direction
        · rw [if_pos hsplit]
          exact ⟨_, _, rfl⟩
        · rw [if_neg hsplit]
          exact ⟨_, _, rfl⟩

/-- Concrete instantiation of `specializer_data_bounds`. -/
theorem specializer_data_bounds_witness :
    specializerConsume
      { timestamp := 0, device_address := none, endpoint_number := none,
        direction := none, pid := .DATA1, data := [9, 7, 8] } =
      some (.dataPacket [7, 8]
        { timestamp := 0, device_address := none, endpoint_number := none,
          direction := none, pid := .DATA1, data := [9] }) := by
  have := (specializer_data_bounds
    { timestamp := 0, device_address := none, endpoint_number := none,
      direction := none, pid := .DATA1, data := [9, 7, 8] } (by decide)).1
    (by constructor <;> decide)
  simpa using this

/-- When the pre-flush of a consume runs, every emitted transfer groups
either only previously buffered packets or only the packet just consumed. -/
theorem tgConsume_members_of_preflush (st : TGState) (p : TGTxn)
    (st1 : TGState) (ems : List TGEmission)
    (hpre : (packet_starts_new_transfer st p || packet_seems_discontinuous st p) = true)
    (hok : tgConsume st p = .ok (st1, ems)) :
    ∀ em ∈ ems, (∀ x ∈ em.memberTxns, x ∈ st (pipeIdentifier p)) ∨
      (∀ x ∈ em.memberTxns, x = p) := by
  unfold tgConsume at hok
  rw [hpre] at hok
  simp only [if_pos] at hok
  cases hfl : flush_queued_packets st (pipeIdentifier p) with
  | error e =>
    rw [hfl] at hok
    exact absurd hok (by simp)
  | ok pr =>
    obtain ⟨stA, emA⟩ := pr
    rw [hfl] at hok
    simp only [] at hok
    obtain ⟨hA1, hA2, hA3⟩ := flush_ok_cases st (pipeIdentifier p) stA emA hfl
    rw [hA1, List.nil_append] at hok
    by_cases hcon : packet_concludes_transfer p = true
    · rw [if_pos hcon] at hok
      cases hfl2 : flush_queued_packets (stA.set (pipeIdentifier p) [p]) (pipeIdentifier p) with
      | error e =>
        rw [hfl2] at hok
        exact absurd hok (by simp)
      | ok pr2 =>
        obtain ⟨stB, emB⟩ := pr2
        rw [hfl2] at hok
        simp only [Except.ok.injEq, Prod.mk.injEq] at hok
        obtain ⟨hst, hems⟩ := hok
        subst hems
        obtain ⟨hB1, hB2, hB3⟩ := flush_ok_cases _ _ _ _ hfl2
        intro em hem
        rcases List.mem_append.mp hem with hem | hem
        · exact Or.inl (hA3 em hem)
        · refine Or.inr ?_
          intro x hx
          have hxm := hB3 em hem x hx
          simp only [TGState.set, if_pos rfl] at hxm
          simpa using hxm
    · rw [if_neg hcon] at hok
      simp only [Except.ok.injEq, Prod.mk.injEq, List.append_nil] at hok
      obtain ⟨hst, hems⟩ := hok
      subst hems
      intro em hem
      exact Or.inl (hA3 em hem)

/-- C6: a Setup/Data transaction on a non-control pipe with buffered
packets, arriving more than 10 milliseconds after the last buffered packet,
is seen as discontinuous; the pipe is flushed before it is enqueued, so no
emitted transfer groups the last buffered transaction together with the new
one; and elapsed time never marks an endpoint-zero packet discontinuous. -/
theorem tg_discontinuity_flush (st : TGState) (p first : TGTxn) (rest : List TGTxn)
    (hbuf : st (pipeIdentifier p) = first :: rest)
    (hnotmem : p ∉ first :: rest)
    (hep : p.endpoint_number ≠ 0)
    (hgap : p.timestamp - ((first :: rest).getLast (List.cons_ne_nil _ _)).timestamp > 10000) :
    packet_seems_discontinuous st p = true
    ∧ (∀ st1 ems, tgConsume st p = .ok (st1, ems) →
        ∀ em ∈ ems,
          ¬ ((first :: rest).getLast (List.cons_ne_nil _ _) ∈ em.memberTxns
              ∧ p ∈ em.memberTxns))
    ∧ (∀ (st2 : TGState) (q : TGTxn), q.endpoint_number = 0 →
        packet_seems_discontinuous st2 q = false) := by
  have hdisc : packet_seems_discontinuous st p = true := by
    simp only [packet_seems_discontinuous, hbuf]
    simp [hep, hgap]
  refine ⟨hdisc, ?_, ?_⟩
  · intro st1 ems hok em hem hand
    have hmem := tgConsume_members_of_preflush st p st1 ems
      (by rw [hdisc, Bool.or_true]) hok em hem
    rcases hmem with hmem | hmem
    · exact hnotmem (hbuf ▸ hmem p hand.2)
    · have hlp : (first :: rest).getLast (List.cons_ne_nil _ _) = p := hmem _ hand.1
      exact hnotmem (hlp ▸ List.getLast_mem (List.cons_ne_nil _ _))
  · intro st2 q hq
    cases hb2 : st2 (pipeIdentifier q) with
    | nil => simp [packet_seems_discontinuous, hb2]
    | cons r rs => simp [packet_seems_discontinuous, hb2, hq]

/-- Concrete instantiation of `tg_discontinuity_flush`: 20 milliseconds
after `c6p1`, packet `c6p2` is discontinuous. -/
theorem tg_discontinuity_flush_witness :
    packet_seems_discontinuous c6state c6p2 = true :=
  (tg_discontinuity_flush c6state c6p2 c6p1 [] rfl (by decide) (by decide) (by decide)).1

/-- Consuming any packet from an invariant-satisfying transfer grouper
state succeeds (no assertion failure) and preserves the invariant. -/
theorem tgConsume_ok_of_inv (st : TGState) (p : TGTxn) (hinv : tgInv st) :
    ∃ st1 ems, tgConsume st p = .ok (st1, ems) ∧ tgInv st1 := by
  by_cases hc1 : (packet_starts_new_transfer st p || packet_seems_discontinuous st p) = true
  · obtain ⟨stA, emA, hfl⟩ := flush_ok_of_head st (pipeIdentifier p)
      (fun f r hfr => Or.inl (hinv _ _ _ hfr))
    obtain ⟨hA1, hA2, _⟩ := flush_ok_cases _ _ _ _ hfl
    by_cases hcon : packet_concludes_transfer p = true
    · obtain ⟨stB, emB, hfl2⟩ := flush_ok_of_head
        (stA.set (pipeIdentifier p) [p]) (pipeIdentifier p)
        (by
          intro f r hfr
          simp only [TGState.set, if_pos rfl] at hfr
          injection hfr with h1 h2
          exact Or.inr h2.symm)
      refine ⟨stB, emA ++ emB, ?_, ?_⟩
      · simp only [tgConsume]
        rw [hc1]
        simp only [if_pos]
        rw [hfl]
        simp only []
        rw [hA1, List.nil_append, if_pos hcon, hfl2]
      · obtain ⟨hB1, hB2, _⟩ := flush_ok_cases _ _ _ _ hfl2
        intro k f r hk
        by_cases hkp : k = pipeIdentifier p
        · subst hkp
          rw [hB1] at hk
          exact absurd hk (by simp)
        · rw [hB2 k hkp] at hk
          simp only [TGState.set, if_neg hkp] at hk
          rw [hA2 k hkp] at hk
          exact hinv k f r hk
    · have hpset : p.token ≠ .SETUP := by
        intro hps
        apply hcon
        simp [packet_concludes_transfer, hps]
      refine ⟨stA.set (pipeIdentifier p) (stA (pipeIdentifier p) ++ [p]), emA ++ [], ?_, ?_⟩
      · simp only [tgConsume]
        rw [hc1]
        simp only [if_pos]
        rw [hfl]
        simp only []
        rw [if_neg hcon]
      · intro k f r hk
        by_cases hkp : k = pipeIdentifier p
        · subst hkp
          simp only [TGState.set, if_pos rfl] at hk
          rw [hA1, List.nil_append] at hk
          injection hk with h1 h2
          rw [← h1]
          exact hpset
        · simp only [TGState.set, if_neg hkp] at hk
          rw [hA2 k hkp] at hk
          exact hinv k f r hk
  · have hpset : p.token ≠ .SETUP := by
      intro hps
      apply hc1
      rw [packet_starts_new_transfer, if_pos hps, Bool.true_or]
    have hhead : ∀ f r, (st.set (pipeIdentifier p) (st (pipeIdentifier p) ++ [p]))
        (pipeIdentifier p) = f :: r → f.token ≠ .SETUP ∨ r = [] := by
      intro f r hfr
      simp only [TGState.set, if_pos rfl] at hfr
      cases hb : st (pipeIdentifier p) with
      | nil =>
        rw [hb, List.nil_append] at hfr
        injection hfr with h1 h2
        rw [← h1]
        exact Or.inl hpset
      | cons q qs =>
        rw [hb, List.cons_append] at hfr
        injection hfr with h1 h2
        rw [← h1]
        exact Or.inl (hinv _ _ _ hb)
    by_cases hcon : packet_concludes_transfer p = true
    · obtain ⟨stB, emB, hfl2⟩ := flush_ok_of_head
        (st.set (pipeIdentifier p) (st (pipeIdentifier p) ++ [p])) (pipeIdentifier p) hhead
      refine ⟨stB, [] ++ emB, ?_, ?_⟩
      · simp only [tgConsume]
        rw [if_neg hc1]
        simp only []
        rw [if_pos hcon, hfl2]
      · obtain ⟨hB1, hB2, _⟩ := flush_ok_cases _ _ _ _ hfl2
        intro k f r hk
        by_cases hkp : k = pipeIdentifier p
        · subst hkp
          rw [hB1] at hk
          exact absurd hk (by simp)
        · rw [hB2 k hkp] at hk
          simp only [TGState.set, if_neg hkp] at hk
          exact hinv k f r hk
    · refine ⟨st.set (pipeIdentifier p) (st (pipeIdentifier p) ++ [p]), [] ++ [], ?_, ?_⟩
      · simp only [tgConsume]
        rw [if_neg hc1]
        simp only []
        rw [if_neg hcon]
      · intro k f r hk
        by_cases hkp : k = pipeIdentifier p
        · subst hkp
          rcases hhead f r hk with hh | hh
          · exact hh
          · subst hh
            simp only [TGState.set, if_pos rfl] at hk
            cases hb : st (pipeIdentifier p) with
            | nil =>
              rw [hb, List.nil_append] at hk
              injection hk with h1 h2
              rw [← h1]
              exact hpset
            | cons q qs =>
              rw [hb, List.cons_append] at hk
              injection hk with h1 h2
              rw [← h1]
              exact hinv _ _ _ hb
        · simp only [TGState.set, if_neg hkp] at hk
          exact hinv k f r hk

/-- Running the transfer grouper from an invariant-satisfying state over
any transaction sequence succeeds and preserves the invariant. -/
theorem tgRun_ok_of_inv (ps : List TGTxn) :
    ∀ st, tgInv st → ∃ st1 ems, tgRun st ps = .ok (st1, ems) ∧ tgInv st1 := by
  induction ps with
  | nil => exact fun st h => ⟨st, [], rfl, h⟩
  | cons p ps ih =>
    intro st h
    obtain ⟨stA, emA, hA, hAinv⟩ := tgConsume_ok_of_inv st p h
    obtain ⟨stB, emB, hB, hBinv⟩ := ih stA hAinv
    refine ⟨stB, emA ++ emB, ?_, hBinv⟩
    simp only [tgRun]
    rw [hA]
    simp only []
    rw [hB]

/-- C8: decoding a non-empty byte buffer as a descriptor parses the header
fields totally and reports `data[0]` bytes parsed, truncated to `len(data)`
when the buffer is shorter than declared; the empty buffer decodes to
`(none, 0)`. -/
theorem decode_descriptor_count (data : List Nat) :
    (data = [] → decode_data_as_descriptor data = (none, 0))
    ∧ (∀ b0 rest, data = b0 :: rest →
        (decode_data_as_descriptor data).1 =
          some { bLength := some b0, bDescriptorType := rest[0]? } ∧
        (decode_data_as_descriptor data).2 =
          if data.length < b0 then data.length else b0) := by
  constructor
  · intro h
    subst h
    rfl
  · intro b0 rest h
    subst h
    exact ⟨by simp [decode_data_as_descriptor], rfl⟩

/-- Concrete instantiation of `decode_descriptor_count`: a buffer declaring
5 bytes but holding only 3 parses its header and truncates the count. -/
theorem decode_descriptor_count_witness :
    decode_data_as_descriptor [] = (none, 0)
    ∧ (decode_data_as_descriptor [5, 1, 2]).1 =
        some { bLength := some 5, bDescriptorType := some 1 }
    ∧ (decode_data_as_descriptor [5, 1, 2]).2 = 3 := by
  have h := (decode_descriptor_count [5, 1, 2]).2 5 [1, 2] rfl
  refine ⟨(decode_descriptor_count []).1 rfl, h.1, ?_⟩
  rw [h.2]
  decide

/-- C9 divergence at the failing input: batching two start-of-frame packets
and flushing on a non-SOF packet emits one collection whose
subordinate_packets list is empty, not the batched pair, because the
assignment of the queued packets is commented out in the source. -/
theorem sof_conglomerator_drops_provenance :
    (sofRun [] [some sofA, some sofB, none]).2 =
      [{ timestamp := 0, data := [1], subordinate_packets := [] }]
    ∧ ([] : List SOFPkt) ≠ [sofA, sofB] := by
  exact ⟨rfl, fun h => List.noConfusion h⟩

/-- C10: starting from empty buffers, no Setup/Data transaction sequence
can make the transfer grouper assertion fail: every run succeeds, and every
reachable inter-consume state has no SETUP-headed pipe buffer (so a flush
that finds a SETUP-headed buffer only ever finds the singleton buffer built
inside the same consume). -/
theorem tg_setup_assert_never_fails (ps : List TGTxn) :
    (∃ pr, tgRun tgEmpty ps = .ok pr) ∧
    ∀ st1 ems, tgRun tgEmpty ps = .ok (st1, ems) →
      ∀ k first rest, st1 k = first :: rest → first.token ≠ .SETUP := by
  obtain ⟨st1, ems, h, hinv⟩ := tgRun_ok_of_inv ps tgEmpty
    (fun k f r hk => absurd hk (by simp [tgEmpty]))
  refine ⟨⟨(st1, ems), h⟩, ?_⟩
  intro st2 ems2 h2 k f r hk
  rw [h] at h2
  injection h2 with h2
  injection h2 with h21 h22
  subst h21
  exact hinv k f r hk

end ViewSB
